import Mathlib

/-!
Shallow embedding of the BlueWii daemon (a Wii Remote connection manager)
for checking its natural-language specification.

Source files embedded here:
* `src/wii_remote.rs` — `WiiRemote::try_connect`, `is_connected`,
  `get_udev_device_path`; external process output is passed in as a list
  of text lines, and the external effects performed (discovery scans,
  connect invocations) are returned explicitly.
* `src/main.rs` — the retry skeleton of `connect_and_poll`, the per-event
  body of the libinput dispatch loop, and the `timeout` watchdog tick.

Fallible operations (Rust `unwrap` on `Option`/`Result`) are embedded as
`Option`-returning functions where `none` models a panic.
-/

namespace BlueWii

/-- Model of Rust `str::contains(pat)`: `pat` occurs as a contiguous
substring of `s`. -/
def strContains (s pat : String) : Bool :=
  s.data.tails.any (fun t => pat.data.isPrefixOf t)

/-- Tokenizer for Rust `str::split_whitespace`, accumulator-based:
`acc` holds the current token's characters in reverse order. -/
def splitWsAux : List Char → List Char → List String
  | [], acc => if acc.isEmpty then [] else [String.mk acc.reverse]
  | c :: cs, acc =>
    if c.isWhitespace then
      if acc.isEmpty then splitWsAux cs []
      else String.mk acc.reverse :: splitWsAux cs []
    else splitWsAux cs (c :: acc)

/-- Model of Rust `str::split_whitespace`: maximal runs of
non-whitespace characters, empty tokens never produced. -/
def splitWs (s : String) : List String :=
  splitWsAux s.data []

/-- Splitter for Rust `str::split(":")`, accumulator-based. -/
def splitColonAux : List Char → List Char → List String
  | [], acc => [String.mk acc.reverse]
  | c :: cs, acc =>
    if c = ':' then String.mk acc.reverse :: splitColonAux cs []
    else splitColonAux cs (c :: acc)

/-- Model of Rust `str::split(":")`. -/
def splitColon (s : String) : List String :=
  splitColonAux s.data []

/-- The one field of `struct WiiRemote` in `src/wii_remote.rs`. -/
structure WiiRemote where
  bluetooth_address : String
deriving DecidableEq

/-- Externally observable effects of one `try_connect` call: how many
discovery scans were started and which identities were passed to
`bluetoothctl connect`. -/
structure Effects where
  scanCalls : Nat
  connectCalls : List String
deriving DecidableEq

/-- Embedding of `WiiRemote::is_connected` (src/wii_remote.rs:73-96).
Input: the lines of `bluetoothctl devices` output.  The first line
containing `"RVL"` sets `bluetooth_address` to its whitespace field at
index 1 and yields `true`; no such line yields `false`.  `none` models
the panic of `nth(1).unwrap()` on a matching line with fewer fields. -/
def is_connected : List String → WiiRemote → Option (Bool × WiiRemote)
  | [], self => some (false, self)
  | line :: rest, self =>
    if strContains line "RVL" then
      match (splitWs line).get? 1 with
      | none => none
      | some addr => some (true, { self with bluetooth_address := addr })
    else is_connected rest self

/-- Embedding of the scan-reading loop of `WiiRemote::try_connect`
(src/wii_remote.rs:44-54): fold over the lines of the
`bluetoothctl -t 30 scan on` output, overwriting the running
`bluetooth_address` with whitespace field index 2 of every line that
contains `"RVL"`.  `none` models the panic of `nth(2).unwrap()`. -/
def recordScanResults : List String → String → Option String
  | [], addr => some addr
  | line :: rest, addr =>
    if strContains line "RVL" then
      match (splitWs line).get? 2 with
      | none => none
      | some a => recordScanResults rest a
    else recordScanResults rest addr

/-- Embedding of the not-already-connected tail of `WiiRemote::try_connect`
(src/wii_remote.rs:26-70): reset `bluetooth_address` to the empty string,
fold the scan output, return `false` if the address stayed empty, else
invoke `bluetoothctl connect` with the recorded address and return
`true` regardless of that invocation's exit status. -/
def try_connect_scan (scanLines : List String) (s1 : WiiRemote) :
    Option (Bool × WiiRemote × Effects) :=
  (recordScanResults scanLines "").bind (fun addr =>
    if addr = "" then
      some (false, { s1 with bluetooth_address := "" }, ⟨1, []⟩)
    else
      some (true, { s1 with bluetooth_address := addr }, ⟨1, [addr]⟩))

/-- Embedding of `WiiRemote::try_connect` (src/wii_remote.rs:21-71).
`devicesLines` is the `bluetoothctl devices` output consumed by the
initial `is_connected` check; `scanLines` is the discovery-scan output.
When already connected it returns `true` at once with zero scans and
zero connect invocations. -/
def try_connect (devicesLines scanLines : List String) (self : WiiRemote) :
    Option (Bool × WiiRemote × Effects) :=
  match is_connected devicesLines self with
  | none => none
  | some (true, s1) => some (true, s1, ⟨0, []⟩)
  | some (false, s1) => try_connect_scan scanLines s1

/-- Embedding of `WiiRemote::get_udev_device_path`
(src/wii_remote.rs:108-139).  Input: the lines of `xwiishow list`
output.  The first line containing `"Found device #1"` is split on
`":"`, the first piece dropped, and the remaining pieces concatenated
(with no separator, exactly as `collect::<String>()` does). -/
def get_udev_device_path : List String → Option String
  | [] => none
  | line :: rest =>
    if strContains line "Found device #1" then
      some (String.join ((splitColon line).drop 1))
    else get_udev_device_path rest

/-- `MAX_RETRIES` constant of `connect_and_poll` (src/main.rs:115). -/
def MAX_RETRIES : Nat := 10

/-- Observable state of the `connect_and_poll` retry loop
(src/main.rs:115-147): the `retries` counter, how many `try_connect`
attempts were made, how many times the fatal ceiling message was
logged, and whether the loop has executed `break`. -/
structure LoopState where
  retries : Nat
  attempts : Nat
  fatalLogged : Nat
  stopped : Bool
deriving DecidableEq

/-- Loop state at the first iteration of `connect_and_poll`:
`let mut retries = 0`, no attempts yet, nothing logged, running. -/
def initLoopState : LoopState := ⟨0, 0, 0, false⟩

/-- One iteration of the `connect_and_poll` retry loop
(src/main.rs:118-147).  The iteration outcome `tc` abstracts the
external world: `none` is a failed `try_lock`, `some b` is a lock
acquisition followed by `try_connect` returning `b`.  The ceiling
check `retries >= MAX_RETRIES` runs at the top of the iteration,
before the lock is taken; reaching it logs the fatal message once and
breaks.  After `break`, the state never changes again. -/
def connect_and_poll_step (s : LoopState) (tc : Option Bool) : LoopState :=
  if s.stopped then s
  else if MAX_RETRIES ≤ s.retries then
    { s with fatalLogged := s.fatalLogged + 1, stopped := true }
  else
    match tc with
    | none => s
    | some false => { s with attempts := s.attempts + 1, retries := s.retries + 1 }
    | some true => { s with attempts := s.attempts + 1, retries := 0 }

/-- The `connect_and_poll` retry loop run for `n` iterations, iteration
`i` taking its outcome from `oracle i`. -/
def connect_and_poll_run (oracle : Nat → Option Bool) : Nat → LoopState
  | 0 => initLoopState
  | n + 1 => connect_and_poll_step (connect_and_poll_run oracle n) (oracle n)

/-- Modulus of Rust `u64` arithmetic; equals `2 ^ 64`. -/
def U64MOD : Nat := 18446744073709551616

/-- Release-build semantics of the Rust `u64` subtraction
`current_time - CURRENT_TIME.load(..)` (src/main.rs:223): wrapping
subtraction modulo `2 ^ 64`, defined for `a, b < U64MOD`. -/
def u64sub (a b : Nat) : Nat := (a + U64MOD - b) % U64MOD

/-- Debug-build semantics of the same subtraction: Rust overflow
checking panics when the subtrahend exceeds the minuend, modelled as
`none`. -/
def checkedSub (a b : Nat) : Option Nat :=
  if b ≤ a then some (a - b) else none

/-- One tick of the `timeout` watchdog loop (src/main.rs:204-229),
after the one-second sleep.  `lockAcquired` is the outcome of
`try_lock` (on failure the tick is skipped), `clock` the outcome of
reading `SystemTime::now` (on failure the tick is skipped), `activity`
the value of `CURRENT_TIME`.  The result counts how many times
`disconnect()` is invoked on this tick. -/
def timeout_tick (lockAcquired : Bool) (clock : Option Nat) (activity : Nat) : Nat :=
  if lockAcquired then
    match clock with
    | none => 0
    | some now => if 5 * 60 ≤ u64sub now activity then 1 else 0
  else 0

/-- Outcome of processing one libinput event in the dispatch loop of
`connect_and_poll` (src/main.rs:166-197). -/
inductive EventOutcome where
  /-- A Rust panic: `Result::unwrap` called on an `Err`. -/
  | panicked : EventOutcome
  /-- The event's device path differs from the resolved path; the
  event is skipped with a debug log. -/
  | ignored : EventOutcome
  /-- The clock read failed; an error is logged and no update made. -/
  | clockSkipped : EventOutcome
  /-- The activity clock `CURRENT_TIME` is set to `t`. -/
  | updated : Nat → EventOutcome
deriving DecidableEq

/-- Embedding of the per-event body of the dispatch loop
(src/main.rs:171-196).  `decodedPath` is the result of
`CStr::to_str()` on the event's udev syspath: `some p` when the bytes
are valid text, `none` when not.  The source calls
`.to_str().unwrap()` on it, so `none` makes the thread panic.
`resolvedPath` is `wii_remote_udev_device_path`; `clock` is the
outcome of reading `SystemTime::now`. -/
def process_event (decodedPath : Option String) (resolvedPath : String)
    (clock : Option Nat) : EventOutcome :=
  match decodedPath with
  | none => .panicked
  | some p =>
    if p ≠ resolvedPath then .ignored
    else
      match clock with
      | none => .clockSkipped
      | some t => .updated t

/-! ### Helper lemmas -/

/-- Every token produced by the whitespace tokenizer is nonempty. -/
lemma splitWsAux_mem_ne_empty :
    ∀ (cs acc : List Char) (x : String), x ∈ splitWsAux cs acc → x ≠ "" := by
  intro cs
  induction cs with
  | nil =>
    intro acc x hx
    simp only [splitWsAux] at hx
    split at hx
    · simp at hx
    · next hacc =>
      simp only [List.mem_singleton] at hx
      subst hx
      intro hc
      have hdata : acc.reverse = [] := congrArg String.data hc
      rw [List.reverse_eq_nil_iff] at hdata
      subst hdata
      simp at hacc
  | cons c cs ih =>
    intro acc x hx
    simp only [splitWsAux] at hx
    split at hx
    · split at hx
      · exact ih [] x hx
      · next hacc =>
        rcases List.mem_cons.mp hx with h | h
        · subst h
          intro hc
          have hdata : acc.reverse = [] := congrArg String.data hc
          rw [List.reverse_eq_nil_iff] at hdata
          subst hdata
          simp at hacc
        · exact ih [] x h
    · exact ih (c :: acc) x hx

/-- Any token found at any index of a `split_whitespace` result is
nonempty. -/
lemma splitWs_get?_ne_empty {s x : String} {n : Nat}
    (h : (splitWs s).get? n = some x) : x ≠ "" :=
  splitWsAux_mem_ne_empty s.data [] x (List.get?_mem h)

/-- The scan fold distributes over list concatenation. -/
lemma recordScanResults_append (xs : List String) :
    ∀ (ys : List String) (a : String),
    recordScanResults (xs ++ ys) a =
      (recordScanResults xs a).bind (fun a2 => recordScanResults ys a2) := by
  induction xs with
  | nil => intro ys a; rfl
  | cons l rest ih =>
    intro ys a
    simp only [List.cons_append, recordScanResults]
    split
    · cases h2 : (splitWs l).get? 2 with
      | none => rfl
      | some a2 => exact ih ys a2
    · exact ih ys a

/-- A scan output with no line containing `"RVL"` leaves the running
address unchanged. -/
lemma recordScanResults_nomatch :
    ∀ (xs : List String) (a : String),
    (∀ l ∈ xs, strContains l "RVL" = false) →
    recordScanResults xs a = some a := by
  intro xs
  induction xs with
  | nil => intro a _; rfl
  | cons l rest ih =>
    intro a h
    have hl : strContains l "RVL" = false := h l (List.mem_cons_self l rest)
    simp only [recordScanResults, hl, Bool.false_eq_true, if_false]
    exact ih a (fun m hm => h m (List.mem_cons_of_mem l hm))

/-- Full characterisation of the scan fold when every matching line has
a whitespace field at index 2: it succeeds, yields a nonempty address
when some line matched, and returns the initial address when none
did. -/
lemma recordScanResults_spec :
    ∀ (xs : List String) (a : String),
    (∀ l ∈ xs, strContains l "RVL" = true → ((splitWs l).get? 2).isSome = true) →
    ∃ a2, recordScanResults xs a = some a2 ∧
      ((∃ l ∈ xs, strContains l "RVL" = true) → a2 ≠ "") ∧
      ((∀ l ∈ xs, strContains l "RVL" = false) → a2 = a) := by
  intro xs
  induction xs with
  | nil =>
    intro a _
    exact ⟨a, rfl, by simp, fun _ => rfl⟩
  | cons l rest ih =>
    intro a hwf
    by_cases hl : strContains l "RVL" = true
    · obtain ⟨x, hx⟩ :=
        Option.isSome_iff_exists.mp (hwf l (List.mem_cons_self l rest) hl)
      obtain ⟨a2, h1, h2, h3⟩ :=
        ih x (fun m hm => hwf m (List.mem_cons_of_mem l hm))
      refine ⟨a2, ?_, ?_, ?_⟩
      · simp only [recordScanResults, hl, if_true, hx]
        exact h1
      · intro _
        by_cases hrest : ∃ m ∈ rest, strContains m "RVL" = true
        · exact h2 hrest
        · have hnone : ∀ m ∈ rest, strContains m "RVL" = false := by
            intro m hm
            rcases Bool.eq_false_or_eq_true (strContains m "RVL") with h | h
            · exact absurd ⟨m, hm, h⟩ hrest
            · exact h
          rw [h3 hnone]
          exact splitWs_get?_ne_empty hx
      · intro hall
        exact absurd (hall l (List.mem_cons_self l rest)) (by simp [hl])
    · have hl' : strContains l "RVL" = false := by
        rcases Bool.eq_false_or_eq_true (strContains l "RVL") with h | h
        · exact absurd h hl
        · exact h
      obtain ⟨a2, h1, h2, h3⟩ :=
        ih a (fun m hm => hwf m (List.mem_cons_of_mem l hm))
      refine ⟨a2, ?_, ?_, ?_⟩
      · simp only [recordScanResults, hl', Bool.false_eq_true, if_false]
        exact h1
      · intro hex
        rcases hex with ⟨m, hm, hmatch⟩
        rcases List.mem_cons.mp hm with h | h
        · subst h; exact absurd hmatch hl
        · exact h2 ⟨m, h, hmatch⟩
      · intro hall
        exact h3 (fun m hm => hall m (List.mem_cons_of_mem l hm))

/-- When the last line containing `"RVL"` carries identity `x` at
whitespace field index 2, the scan fold ends on `x`: every earlier
match is overwritten. -/
lemma recordScanResults_last (pre post : List String) (l x a : String)
    (hwf : ∀ m ∈ pre, strContains m "RVL" = true → ((splitWs m).get? 2).isSome = true)
    (hl : strContains l "RVL" = true)
    (hx : (splitWs l).get? 2 = some x)
    (hpost : ∀ m ∈ post, strContains m "RVL" = false) :
    recordScanResults (pre ++ l :: post) a = some x := by
  obtain ⟨a2, h1, _, _⟩ := recordScanResults_spec pre a hwf
  rw [recordScanResults_append, h1, Option.some_bind]
  simp only [recordScanResults, hl, if_true, hx]
  exact recordScanResults_nomatch post x hpost

/-- Unfolding of `try_connect` when the initial `is_connected` check
reports already connected. -/
lemma try_connect_of_connected {dl : List String} {s s1 : WiiRemote}
    (sl : List String) (h : is_connected dl s = some (true, s1)) :
    try_connect dl sl s = some (true, s1, ⟨0, []⟩) := by
  unfold try_connect
  rw [h]

/-- Unfolding of `try_connect` when the initial `is_connected` check
reports not connected. -/
lemma try_connect_of_not_connected {dl : List String} {s s1 : WiiRemote}
    (sl : List String) (h : is_connected dl s = some (false, s1)) :
    try_connect dl sl s = try_connect_scan sl s1 := by
  unfold try_connect
  rw [h]

/-- Unfolding equation for one more iteration of the retry loop. -/
lemma connect_and_poll_run_succ (oracle : Nat → Option Bool) (n : Nat) :
    connect_and_poll_run oracle (n + 1) =
      connect_and_poll_step (connect_and_poll_run oracle n) (oracle n) := rfl

/-- Under an oracle whose every `try_connect` fails, the first `k ≤ 10`
iterations each make one attempt and push the retry counter to `k`. -/
lemma connect_and_poll_run_const_false (oracle : Nat → Option Bool)
    (h : ∀ n, oracle n = some false) :
    ∀ k, k ≤ 10 → connect_and_poll_run oracle k = ⟨k, k, 0, false⟩ := by
  intro k
  induction k with
  | zero => intro _; rfl
  | succ k ih =>
    intro hk
    have h9 : k < 10 := by omega
    rw [connect_and_poll_run_succ, ih (by omega), h k]
    simp [connect_and_poll_step, MAX_RETRIES, Nat.not_le.mpr h9]

/-- Under an always-failing oracle, every iteration from the twelfth on
sees the stopped state reached at iteration eleven: ten attempts, one
fatal log, loop broken. -/
lemma connect_and_poll_run_fatal (oracle : Nat → Option Bool)
    (h : ∀ n, oracle n = some false) :
    ∀ m, connect_and_poll_run oracle (11 + m) = ⟨10, 10, 1, true⟩ := by
  intro m
  induction m with
  | zero =>
    rw [show (11 : Nat) + 0 = 10 + 1 by omega, connect_and_poll_run_succ,
      connect_and_poll_run_const_false oracle h 10 (by omega)]
    simp [connect_and_poll_step, MAX_RETRIES]
  | succ m ih =>
    rw [show 11 + (m + 1) = (11 + m) + 1 by omega, connect_and_poll_run_succ, ih]
    simp [connect_and_poll_step]

/-- `u64` wrapping subtraction agrees with truncated subtraction when no
underflow occurs. -/
lemma u64sub_of_le {a b : Nat} (h1 : b ≤ a) (h2 : a < U64MOD) :
    u64sub a b = a - b := by
  unfold u64sub
  unfold U64MOD at h2 ⊢
  omega

/-! ### Claims -/

/-- C1: the spec claims `get_udev_device_path` returns exactly the
device path following the `"Found device #1"` marker and its colon; on
the spec's own example line the code instead returns the tail pieces of
the colon split concatenated without the colons and with the leading
space kept, so the claimed value is not returned. -/
theorem claim_C1 :
    get_udev_device_path
        ["Listing connected Wii Remote devices:",
          "Found device #1: /sys/devices/virtual/misc/uhid/0005:057E:0306.0006",
          "End of device list"] =
      some " /sys/devices/virtual/misc/uhid/0005057E0306.0006" ∧
    some " /sys/devices/virtual/misc/uhid/0005057E0306.0006" ≠
      some "/sys/devices/virtual/misc/uhid/0005:057E:0306.0006" := by
  decide

/-- C2 counterexample: for the spec's discovery line
`"Device XX:XX:XX:XX:XX:XX RVL-036"`, `try_connect` records and passes
to connect the whitespace field at index 2, which is `"RVL-036"`, not
the claimed `"XX:XX:XX:XX:XX:XX"`. -/
theorem claim_C2_counterexample :
    try_connect [] ["Device XX:XX:XX:XX:XX:XX RVL-036"] ⟨""⟩ =
      some (true, ⟨"RVL-036"⟩, ⟨1, ["RVL-036"]⟩) ∧
    ("RVL-036" : String) ≠ "XX:XX:XX:XX:XX:XX" := by
  decide

/-- C2 (amended): for every discovery output with exactly one line
containing `"RVL"`, whose whitespace field at index 2 is `x`,
`try_connect` (when not already connected) records identity `x` and
invokes the connect command with argument `x` exactly once, returning
true regardless of the connect invocation's outcome. -/
theorem claim_C2_amended :
    ∀ (dl : List String) (s s1 : WiiRemote) (pre post : List String) (l x : String),
    is_connected dl s = some (false, s1) →
    (∀ m ∈ pre, strContains m "RVL" = false) →
    strContains l "RVL" = true →
    (splitWs l).get? 2 = some x →
    (∀ m ∈ post, strContains m "RVL" = false) →
    try_connect dl (pre ++ l :: post) s = some (true, ⟨x⟩, ⟨1, [x]⟩) := by
  intro dl s s1 pre post l x hconn hpre hl hx hpost
  rw [try_connect_of_not_connected _ hconn]
  unfold try_connect_scan
  rw [recordScanResults_last pre post l x "" (fun m hm hmatch =>
    absurd hmatch (by simp [hpre m hm])) hl hx hpost]
  rw [Option.some_bind, if_neg (splitWs_get?_ne_empty hx)]

/-- C2 witness: concrete instance of the amended claim at the spec's
example line, yielding identity `"RVL-036"`. -/
theorem claim_C2_witness :
    try_connect [] (([] : List String) ++ "Device XX:XX:XX:XX:XX:XX RVL-036" :: []) ⟨""⟩ =
      some (true, ⟨"RVL-036"⟩, ⟨1, ["RVL-036"]⟩) :=
  claim_C2_amended [] ⟨""⟩ ⟨""⟩ [] [] "Device XX:XX:XX:XX:XX:XX RVL-036" "RVL-036"
    (by decide) (by decide) (by decide) (by decide) (by decide)

/-- C3: in the `connect_and_poll` loop a failed `try_connect` increments
the retry counter and a successful one resets it to zero; under an
always-failing oracle the loop makes exactly ten attempts, logs the
fatal condition exactly once, and stays stopped forever after. -/
theorem claim_C3 :
    (∀ s : LoopState, s.stopped = false → s.retries < MAX_RETRIES →
      (connect_and_poll_step s (some false)).retries = s.retries + 1 ∧
      (connect_and_poll_step s (some false)).attempts = s.attempts + 1 ∧
      (connect_and_poll_step s (some true)).retries = 0) ∧
    (∀ oracle : Nat → Option Bool, (∀ n, oracle n = some false) →
      ∀ n, 11 ≤ n → connect_and_poll_run oracle n = ⟨10, 10, 1, true⟩) := by
  constructor
  · intro s hstop hlt
    refine ⟨?_, ?_, ?_⟩ <;>
      simp [connect_and_poll_step, hstop, Nat.not_le.mpr hlt]
  · intro oracle h n hn
    obtain ⟨m, rfl⟩ := Nat.exists_eq_add_of_le hn
    exact connect_and_poll_run_fatal oracle h m

/-- C3 witness: the step facts at the initial state, and the run under
the constantly-failing oracle after twelve iterations. -/
theorem claim_C3_witness :
    ((connect_and_poll_step initLoopState (some false)).retries = initLoopState.retries + 1 ∧
      (connect_and_poll_step initLoopState (some false)).attempts = initLoopState.attempts + 1 ∧
      (connect_and_poll_step initLoopState (some true)).retries = 0) ∧
    connect_and_poll_run (fun _ => some false) 12 = ⟨10, 10, 1, true⟩ :=
  ⟨claim_C3.1 initLoopState rfl (by decide),
    claim_C3.2 (fun _ => some false) (fun _ => rfl) 12 (by decide)⟩

/-- C4: on a watchdog tick that takes the lock and reads the clock,
with activity clock `t0` and a current time `now ≥ t0` (within `u64`
range), `disconnect` is invoked exactly once if and only if
`now - t0 ≥ 300`; in particular at `now = t0 + 299` it is not invoked
and at `now = t0 + 300` it is invoked exactly once. -/
theorem claim_C4 :
    ∀ t0 now : Nat, t0 ≤ now → now < U64MOD →
    ((timeout_tick true (some now) t0 = 1 ↔ 300 ≤ now - t0) ∧
      (now = t0 + 299 → timeout_tick true (some now) t0 = 0) ∧
      (now = t0 + 300 → timeout_tick true (some now) t0 = 1)) := by
  intro t0 now h1 h2
  have hu : u64sub now t0 = now - t0 := u64sub_of_le h1 h2
  have hcase : timeout_tick true (some now) t0 =
      if 300 ≤ now - t0 then 1 else 0 := by
    simp only [timeout_tick, if_true, hu]
  refine ⟨?_, ?_, ?_⟩
  · rw [hcase]
    by_cases h : 300 ≤ now - t0 <;> simp [h]
  · intro he
    rw [hcase, if_neg (by omega)]
  · intro he
    rw [hcase, if_pos (by omega)]

/-- C4 witness: with activity clock 1000, a tick at 1299 invokes no
disconnect and a tick at 1300 invokes exactly one. -/
theorem claim_C4_witness :
    timeout_tick true (some 1299) 1000 = 0 ∧ timeout_tick true (some 1300) 1000 = 1 :=
  ⟨(claim_C4 1000 1299 (by decide) (by decide)).2.1 rfl,
    (claim_C4 1000 1300 (by decide) (by decide)).2.2 rfl⟩

/-- C5: the spec claims an event whose device path fails to decode as
valid text is logged and skipped without crashing; the source instead
calls `.to_str().unwrap()` on the decode result, so such an event makes
the monitor thread panic. -/
theorem claim_C5 :
    process_event none "/sys/devices/virtual/misc/uhid/0005:057E:0306.0006" (some 1000) =
      EventOutcome.panicked := rfl

/-- C6: when not already connected, and every scan line containing
`"RVL"` is well formed (has a whitespace field at index 2),
`try_connect` performs one scan and returns true if and only if some
scan line contains `"RVL"`; with zero matching lines it returns
false. -/
theorem claim_C6 :
    ∀ (dl sl : List String) (s s1 : WiiRemote),
    is_connected dl s = some (false, s1) →
    (∀ l ∈ sl, strContains l "RVL" = true → ((splitWs l).get? 2).isSome = true) →
    ∃ r s2 eff, try_connect dl sl s = some (r, s2, eff) ∧
      eff.scanCalls = 1 ∧
      (r = true ↔ ∃ l ∈ sl, strContains l "RVL" = true) := by
  intro dl sl s s1 hconn hwf
  rw [try_connect_of_not_connected sl hconn]
  unfold try_connect_scan
  obtain ⟨a2, h1, h2, h3⟩ := recordScanResults_spec sl "" hwf
  rw [h1, Option.some_bind]
  by_cases ha : a2 = ""
  · refine ⟨false, _, ⟨1, []⟩, by rw [if_pos ha], rfl, ?_⟩
    simp only [Bool.false_eq_true, false_iff]
    intro hex
    exact h2 hex ha
  · refine ⟨true, _, ⟨1, [a2]⟩, by rw [if_neg ha], rfl, ?_⟩
    simp only [true_iff]
    by_contra hnone
    apply ha
    refine h3 (fun m hm => ?_)
    rcases Bool.eq_false_or_eq_true (strContains m "RVL") with h | h
    · exact absurd ⟨m, hm, h⟩ hnone
    · exact h

/-- C6 witness: one matching scan line gives one scan call and result
true, the match witnessing the right-hand side of the equivalence. -/
theorem claim_C6_witness :
    ∃ r s2 eff,
      try_connect [] ["[NEW] Device AA:BB:CC:DD:EE:FF RVL-CNT-01"] ⟨""⟩ = some (r, s2, eff) ∧
      eff.scanCalls = 1 ∧
      (r = true ↔ ∃ l ∈ ["[NEW] Device AA:BB:CC:DD:EE:FF RVL-CNT-01"],
        strContains l "RVL" = true) :=
  claim_C6 [] ["[NEW] Device AA:BB:CC:DD:EE:FF RVL-CNT-01"] ⟨""⟩ ⟨""⟩
    (by decide) (by decide)

/-- C7 counterexample: with two matching scan lines, `try_connect`
records the identity of the second (last) matching line, not the
first. -/
theorem claim_C7_counterexample :
    try_connect []
        ["[NEW] Device 11:22:33:44:55:66 RVL-CNT-01",
          "[NEW] Device AA:BB:CC:DD:EE:FF RVL-CNT-01"] ⟨""⟩ =
      some (true, ⟨"AA:BB:CC:DD:EE:FF"⟩, ⟨1, ["AA:BB:CC:DD:EE:FF"]⟩) ∧
    ("AA:BB:CC:DD:EE:FF" : String) ≠ "11:22:33:44:55:66" := by
  decide

/-- C7 (amended): for every discovery output whose last line containing
`"RVL"` carries identity `x` at whitespace field index 2 (earlier
matching lines being well formed), `try_connect` (when not already
connected) records `x` — the last match's identity, every earlier
match being overwritten. -/
theorem claim_C7_amended :
    ∀ (dl : List String) (s s1 : WiiRemote) (pre post : List String) (l x : String),
    is_connected dl s = some (false, s1) →
    (∀ m ∈ pre, strContains m "RVL" = true → ((splitWs m).get? 2).isSome = true) →
    strContains l "RVL" = true →
    (splitWs l).get? 2 = some x →
    (∀ m ∈ post, strContains m "RVL" = false) →
    try_connect dl (pre ++ l :: post) s = some (true, ⟨x⟩, ⟨1, [x]⟩) := by
  intro dl s s1 pre post l x hconn hpre hl hx hpost
  rw [try_connect_of_not_connected _ hconn]
  unfold try_connect_scan
  rw [recordScanResults_last pre post l x "" hpre hl hx hpost]
  rw [Option.some_bind, if_neg (splitWs_get?_ne_empty hx)]

/-- C7 witness: concrete two-match discovery output; the recorded
identity is the second line's address. -/
theorem claim_C7_witness :
    try_connect []
        (["[NEW] Device 11:22:33:44:55:66 RVL-CNT-01"] ++
          "[NEW] Device AA:BB:CC:DD:EE:FF RVL-CNT-01" :: []) ⟨""⟩ =
      some (true, ⟨"AA:BB:CC:DD:EE:FF"⟩, ⟨1, ["AA:BB:CC:DD:EE:FF"]⟩) :=
  claim_C7_amended [] ⟨""⟩ ⟨""⟩ ["[NEW] Device 11:22:33:44:55:66 RVL-CNT-01"] []
    "[NEW] Device AA:BB:CC:DD:EE:FF RVL-CNT-01" "AA:BB:CC:DD:EE:FF"
    (by decide) (by decide) (by decide) (by decide) (by decide)

/-- C8: when `is_connected` already reports true, `try_connect` returns
true immediately with zero discovery scans and zero connect
invocations. -/
theorem claim_C8 :
    ∀ (dl sl : List String) (s s1 : WiiRemote),
    is_connected dl s = some (true, s1) →
    try_connect dl sl s = some (true, s1, ⟨0, []⟩) := by
  intro dl sl s s1 h
  exact try_connect_of_connected sl h

/-- C8 witness: already connected, with a candidate present in the scan
output that is never consumed: zero scans, zero connects. -/
theorem claim_C8_witness :
    try_connect ["Device AA:BB:CC:DD:EE:FF RVL-CNT-01"]
        ["[NEW] Device 11:22:33:44:55:66 RVL-CNT-01"] ⟨""⟩ =
      some (true, ⟨"AA:BB:CC:DD:EE:FF"⟩, ⟨0, []⟩) :=
  claim_C8 ["Device AA:BB:CC:DD:EE:FF RVL-CNT-01"]
    ["[NEW] Device 11:22:33:44:55:66 RVL-CNT-01"] ⟨""⟩ ⟨"AA:BB:CC:DD:EE:FF"⟩ (by decide)

/-- C9 counterexample: at `now = 0` and activity clock `2^64 - 1` the
activity value is strictly greater than the clock reading, yet the
wrapped difference is 1, below the threshold, and no disconnect is
invoked — refuting the claim that every such tick disconnects. -/
theorem claim_C9_counterexample :
    0 < U64MOD - 1 ∧ timeout_tick true (some 0) (U64MOD - 1) = 0 := by
  constructor
  · decide
  · decide

/-- C9 (amended): on a tick whose clock reading `now` is strictly below
the activity value, the release-build subtraction wraps to
`2^64 - (activity - now)` rather than being clamped to zero or skipped
(and the debug-build checked subtraction panics); whenever the
underflow amount is at most `2^64 - 300` — in particular in the
realistic case of a slightly later stored timestamp — the wrapped
result clears the 300-second threshold and a disconnect is invoked. -/
theorem claim_C9_amended :
    ∀ now activity : Nat, now < activity → activity < U64MOD →
    activity - now ≤ U64MOD - 300 →
    (u64sub now activity = U64MOD - (activity - now) ∧
      checkedSub now activity = none ∧
      timeout_tick true (some now) activity = 1) := by
  intro now activity h1 h2 h3
  have hs : u64sub now activity = U64MOD - (activity - now) := by
    unfold u64sub
    unfold U64MOD at h2 ⊢
    omega
  refine ⟨hs, ?_, ?_⟩
  · unfold checkedSub
    rw [if_neg (by omega)]
  · simp only [timeout_tick, if_true, hs]
    rw [if_pos (by unfold U64MOD at h2 h3 ⊢; omega)]

/-- C9 witness: activity clock 301 with clock reading 0 wraps to
`2^64 - 301`, the checked subtraction underflows, and the tick
disconnects. -/
theorem claim_C9_witness :
    u64sub 0 301 = U64MOD - 301 ∧
    checkedSub 0 301 = none ∧
    timeout_tick true (some 0) 301 = 1 :=
  claim_C9_amended 0 301 (by decide) (by decide) (by decide)

/-- C10: when `is_connected` reports false, `try_connect` resets the
recorded identity to the empty string before scanning, so a discovery
with no candidate returns false with any previously recorded identity
erased. -/
theorem claim_C10 :
    ∀ (dl sl : List String) (s s1 : WiiRemote),
    is_connected dl s = some (false, s1) →
    (∀ l ∈ sl, strContains l "RVL" = false) →
    try_connect dl sl s = some (false, ⟨""⟩, ⟨1, []⟩) := by
  intro dl sl s s1 hconn hnone
  rw [try_connect_of_not_connected sl hconn]
  unfold try_connect_scan
  rw [recordScanResults_nomatch sl "" hnone]
  rw [Option.some_bind, if_pos rfl]

/-- C10 witness: a previously recorded identity is erased by a
no-candidate scan. -/
theorem claim_C10_witness :
    try_connect [] ["no candidate in this output"] ⟨"AA:BB:CC:DD:EE:FF"⟩ =
      some (false, ⟨""⟩, ⟨1, []⟩) :=
  claim_C10 [] ["no candidate in this output"] ⟨"AA:BB:CC:DD:EE:FF"⟩
    ⟨"AA:BB:CC:DD:EE:FF"⟩ (by decide) (by decide)

end BlueWii
